import Mathlib

/-!
Verification of the soliplex_sql integration layer.

This file gives a shallow embedding of the parts of the repository the
claims are about: the read-only guard and query/explain operations of
`soliplex_sql/adapter.py`, the statement splitter / write classifier /
commit compensator of the adapter's batch pipeline (present in the
repository's tests and spec, missing from the src snapshot; modelled
from the spec where so marked), the adapter cache of
`soliplex_sql/tools.py` together with a model of CPython's hashing of
the cache-key tuple, and the `close_all` shutdown sweep.
-/

namespace SoliplexSql

/-- Error hierarchy of `soliplex_sql/exceptions.py`, flattened into one
inductive; each constructor carries the exception message. -/
inductive SoliplexSqlError where
  | configurationError (msg : String)
  | databaseConnectionError (msg : String)
  | queryExecutionError (msg : String)
  | unsupportedDatabaseError (msg : String)
deriving DecidableEq, Repr

/-- Decidable equality of `Except` values, used to evaluate the
embedding at concrete inputs. -/
instance {ε β : Type} [DecidableEq ε] [DecidableEq β] :
    DecidableEq (Except ε β) := fun x y =>
  match x, y with
  | .ok a, .ok b =>
    if h : a = b then .isTrue (by rw [h])
    else .isFalse (fun hc => h (Except.ok.inj hc))
  | .error a, .error b =>
    if h : a = b then .isTrue (by rw [h])
    else .isFalse (fun hc => h (Except.error.inj hc))
  | .ok _, .error _ => .isFalse (fun hc => Except.noConfusion hc)
  | .error _, .ok _ => .isFalse (fun hc => Except.noConfusion hc)

/-- Result of one driver `execute` call, mirroring the upstream result
object consumed by the adapter (`columns`, `rows`, `execution_time_ms`).
Row cells are abstracted by a type parameter. -/
structure ExecResult (α : Type) where
  columns : List String
  rows : List (List α)
  execution_time_ms : Int
deriving DecidableEq, Repr

/-- The fields of `SQLDatabaseDeps` (plus the backend driver functions)
that the adapter methods consult: the driver's `execute` and `explain`
entry points and the `read_only` / `max_rows` settings. -/
structure SQLDatabaseDeps (α : Type) where
  execute : String → ExecResult α
  explain : String → String
  read_only : Bool
  max_rows : Int

/-- Python's `str.strip()` on the ASCII whitespace the SQL strings at
hand contain: drop leading and trailing whitespace characters. Written
on the character list so that it evaluates by kernel reduction. -/
def pyStrip (s : String) : String :=
  String.mk
    (((s.toList.dropWhile Char.isWhitespace).reverse.dropWhile
      Char.isWhitespace).reverse)

/-- Python's `str.upper()` on ASCII letters: uppercase every
character. -/
def pyUpper (s : String) : String := String.mk (s.toList.map Char.toUpper)

/-- Python's `str.startswith(pre)`. -/
def pyStartsWith (s pre : String) : Bool := pre.toList.isPrefixOf s.toList

/-- The tuple `_READONLY_PREFIXES` of `soliplex_sql/adapter.py`:
statements allowed in read-only mode (WITH included for CTEs). -/
def READONLY_KEYWORDS : List String :=
  ["SELECT", "EXPLAIN", "PRAGMA", "SHOW", "DESCRIBE", "WITH"]

/-- The message raised by `SoliplexSQLAdapter._check_read_only` when a
statement is rejected in read-only mode (adapter.py lines 309-310). -/
def readOnlyModeMsg : String :=
  "Database is in read-only mode. Only SELECT, EXPLAIN, PRAGMA, SHOW, DESCRIBE allowed."

namespace SoliplexSQLAdapter

/-- `SoliplexSQLAdapter._check_read_only` (adapter.py lines 295-311):
when `read_only` is set, the stripped upper-cased query must start with
one of the read-only keywords, otherwise a `QueryExecutionError` is
raised. -/
def _check_read_only (read_only : Bool) (sql_query : String) :
    Except SoliplexSqlError Unit :=
  if read_only = false then .ok ()
  else
    let normalized := pyUpper (pyStrip sql_query)
    if READONLY_KEYWORDS.any (fun p => pyStartsWith normalized p) then .ok ()
    else .error (.queryExecutionError readOnlyModeMsg)

/-- Python truthiness of the `max_rows` argument: `max_rows or
self._sql_deps.max_rows` falls back to the default when the caller
passed `None` or `0` (adapter.py line 342). -/
def effectiveLimit (max_rows : Option Int) (dflt : Int) : Int :=
  match max_rows with
  | some m => if m = 0 then dflt else m
  | none => dflt

/-- Python list slicing `rows[:limit]` including the negative-stop case:
a negative stop counts from the end of the list. -/
def pySlice (xs : List β) (limit : Int) : List β :=
  if 0 ≤ limit then xs.take limit.toNat
  else xs.take ((xs.length : Int) + limit).toNat

/-- Shape of the dict returned by `SoliplexSQLAdapter.query`. -/
structure QueryOut (α : Type) where
  columns : List String
  rows : List (List α)
  row_count : Nat
  truncated : Bool
  execution_time_ms : Int
deriving DecidableEq, Repr

/-- `SoliplexSQLAdapter.query` (adapter.py lines 313-368): enforce the
read-only guard, execute the query through the driver, apply the row
cap `max_rows or self._sql_deps.max_rows`, and report `truncated` when
the pre-cap row count exceeded the cap. -/
def query (deps : SQLDatabaseDeps α) (sql_query : String)
    (max_rows : Option Int) : Except SoliplexSqlError (QueryOut α) :=
  match _check_read_only deps.read_only sql_query with
  | .error e => .error e
  | .ok _ =>
    let result := deps.execute sql_query
    let limit := effectiveLimit max_rows deps.max_rows
    let rows := pySlice result.rows limit
    .ok { columns := result.columns
          rows := rows
          row_count := rows.length
          truncated := decide (limit < (result.rows.length : Int))
          execution_time_ms := result.execution_time_ms }

/-- `SoliplexSQLAdapter.explain_query` (adapter.py lines 370-405):
delegates directly to the driver's explain facility; no read-only
guard is applied. -/
def explain_query (deps : SQLDatabaseDeps α) (sql_query : String) :
    Except SoliplexSqlError String :=
  .ok (deps.explain sql_query)

end SoliplexSQLAdapter

/-- The single-quote character, written by code point to keep the source
free of quote literals. -/
def singleQuoteChar : Char := Char.ofNat 39

/-- The double-quote character, written by code point. -/
def doubleQuoteChar : Char := Char.ofNat 34

/-- Emit the accumulated buffer (`buf`, kept in reverse order) as one
trimmed statement, skipping empty statements; `acc` holds the emitted
statements in reverse order. -/
def pushStmt (buf : List Char) (acc : List String) : List String :=
  let s := pyStrip (String.mk buf.reverse)
  if s = "" then acc else s :: acc

/-- Modelled from the spec: the character scanner of the repository's
`_split_statements` (spec 4.1; the function is imported from
`soliplex_sql.adapter` by the repository's unit tests but missing from
the src snapshot). Scans the input maintaining which quote character,
if any, opened the current literal; a doubled quote inside a literal is
an escaped quote; a semicolon outside a literal ends the current
statement. -/
def splitScan : List Char → Option Char → List Char → List String → List String
  | [], _, buf, acc => (pushStmt buf acc).reverse
  | c :: cs, some q, buf, acc =>
    if c = q then
      match cs with
      | c2 :: cs2 =>
        if c2 = q then splitScan cs2 (some q) (c2 :: c :: buf) acc
        else splitScan (c2 :: cs2) none (c :: buf) acc
      | [] => splitScan [] none (c :: buf) acc
    else splitScan cs (some q) (c :: buf) acc
  | c :: cs, none, buf, acc =>
    if c = ';' then splitScan cs none [] (pushStmt buf acc)
    else if c = singleQuoteChar ∨ c = doubleQuoteChar then
      splitScan cs (some c) (c :: buf) acc
    else splitScan cs none (c :: buf) acc

/-- Modelled from the spec: `_split_statements` (spec 4.1) — split a
possibly multi-statement SQL string into trimmed, non-empty statements,
honoring quoted-literal boundaries; empty or whitespace-only input
yields the empty sequence. -/
def _split_statements (sql : String) : List String :=
  splitScan sql.toList none [] []

/-- Modelled from the spec: the write-keyword set of the statement
classifier (spec 4.2 and glossary). -/
def WRITE_KEYWORDS : List String :=
  ["INSERT", "UPDATE", "DELETE", "CREATE", "DROP", "ALTER",
   "REPLACE", "TRUNCATE", "MERGE", "CALL"]

/-- Modelled from the spec: `SoliplexSQLAdapter._is_write_query`
(spec 4.2; exercised by the repository's unit tests but missing from
the src snapshot) — a statement is a write when its trimmed upper-cased
form starts with one of the write keywords. -/
def _is_write_query (s : String) : Bool :=
  WRITE_KEYWORDS.any (fun p => pyStartsWith (pyUpper (pyStrip s)) p)

/-- The optional raw connection handle a backend may expose; `hasCommit`
records whether the handle offers a commit capability. -/
structure Connection where
  hasCommit : Bool
deriving DecidableEq, Repr

/-- A database backend as consumed by the batch query pipeline: the
driver `execute` entry point plus the optional underlying raw
connection used by the commit compensator. -/
structure Backend (α : Type) where
  execute : String → ExecResult α
  connection : Option Connection

/-- Modelled from the spec: `SoliplexSQLAdapter._commit_if_needed`
(spec 4.4; exercised by the repository's unit tests but missing from
the src snapshot) — when the batch contained a write, issue a commit
against the backend's underlying connection; if the backend exposes no
connection, or the connection has no commit capability, skip silently.
Returns whether a commit was issued; never fails. -/
def _commit_if_needed (b : Backend α) (anyWrite : Bool) : Bool :=
  if anyWrite then
    match b.connection with
    | some conn => conn.hasCommit
    | none => false
  else false

/-- Accumulator of the per-statement loop of the batch query
(spec 4.5 step 2). -/
structure BatchAccum (α : Type) where
  columns : List String
  rows : List (List α)
  execution_time_ms : Int
  anyWrite : Bool
  executed : List String
deriving DecidableEq, Repr

/-- Modelled from the spec: the per-statement loop of the batch `query`
(spec 4.5 step 2) — for each statement in order run the read-only
guard, execute it through the driver, accumulate its execution time,
overwrite the column list and append the rows when the statement
produced columns, and track whether any statement was a write. -/
def query_loop (ro : Bool) (ex : String → ExecResult α) :
    List String → BatchAccum α → Except SoliplexSqlError (BatchAccum α)
  | [], acc => .ok acc
  | stmt :: rest, acc =>
    match SoliplexSQLAdapter._check_read_only ro stmt with
    | .error e => .error e
    | .ok _ =>
      let r := ex stmt
      query_loop ro ex rest
        { columns := if r.columns.isEmpty then acc.columns else r.columns
          rows := if r.columns.isEmpty then acc.rows else acc.rows ++ r.rows
          execution_time_ms := acc.execution_time_ms + r.execution_time_ms
          anyWrite := acc.anyWrite || _is_write_query stmt
          executed := acc.executed ++ [stmt] }

/-- The empty accumulator the batch loop starts from. -/
def initAccum : BatchAccum α :=
  { columns := [], rows := [], execution_time_ms := 0,
    anyWrite := false, executed := [] }

/-- Aggregated output of the batch `query` (spec 4.5). `allRows` is the
pre-cap accumulated row list, `executed` the sequence of statements
passed to the driver in order, and `committed` whether the commit
compensator issued a commit. -/
structure BatchOut (α : Type) where
  columns : List String
  rows : List (List α)
  allRows : List (List α)
  row_count : Nat
  truncated : Bool
  execution_time_ms : Int
  anyWrite : Bool
  committed : Bool
  executed : List String
deriving DecidableEq, Repr

/-- The empty Query Result returned when the statement split is empty:
zero rows, zero columns, not truncated, no driver call, no commit. -/
def emptyBatchOut : BatchOut α :=
  { columns := [], rows := [], allRows := [], row_count := 0,
    truncated := false, execution_time_ms := 0, anyWrite := false,
    committed := false, executed := [] }

/-- Modelled from the spec: the repository's batch `query` operation
(spec 4.5; its splitter, write tracking and commit compensation are
exercised by the repository's unit tests but missing from the src
snapshot). Split the SQL, return the empty result immediately when the
split is empty, run the per-statement loop, invoke the commit
compensator when any statement was a write, then apply the row cap
(`maxRows` if provided else the configured default). -/
def query_batch (ro : Bool) (dflt : Nat) (b : Backend α) (sql : String)
    (maxRows : Option Nat) : Except SoliplexSqlError (BatchOut α) :=
  let stmts := _split_statements sql
  if stmts.isEmpty then .ok emptyBatchOut
  else
    match query_loop ro b.execute stmts initAccum with
    | .error e => .error e
    | .ok acc =>
      let committed := _commit_if_needed b acc.anyWrite
      let limit := maxRows.getD dflt
      let rows := acc.rows.take limit
      .ok { columns := acc.columns
            rows := rows
            allRows := acc.rows
            row_count := rows.length
            truncated := decide (limit < acc.rows.length)
            execution_time_ms := acc.execution_time_ms
            anyWrite := acc.anyWrite
            committed := committed
            executed := acc.executed }

/-- Observable events of the shutdown sweep: a `close` call on a cached
adapter, and the clearing of the cache registry. -/
inductive SweepEvent (α : Type) where
  | close (a : α)
  | clear
deriving DecidableEq, Repr

/-- Outcome of `close_all`: the ordered event trace, the propagated
exception if some `close` raised, and the final cache contents. -/
structure SweepResult (α ε : Type) where
  events : List (SweepEvent α)
  error : Option ε
  cache : List (Int × α)
deriving DecidableEq, Repr

/-- The `for adapter in _adapter_cache.values(): await adapter.close()`
loop of `close_all` (tools.py lines 245-246): close each cached adapter
in registry order; a raising `close` aborts the loop and the exception
propagates. Returns the close-call events and the first error. -/
def closeLoop (closeFn : α → Option ε) : List α → List (SweepEvent α) × Option ε
  | [] => ([], none)
  | a :: rest =>
    match closeFn a with
    | some e => ([SweepEvent.close a], some e)
    | none =>
      let (evs, r) := closeLoop closeFn rest
      (SweepEvent.close a :: evs, r)

/-- `close_all` (tools.py lines 240-247): close every cached adapter,
then clear the cache; `_adapter_cache.clear()` runs only after every
`close` returned, so a raising `close` leaves the registry untouched.
`closeFn` gives each adapter's close behavior (`none` = success). -/
def close_all (closeFn : α → Option ε) (cache : List (Int × α)) :
    SweepResult α ε :=
  let (evs, r) := closeLoop closeFn (cache.map Prod.snd)
  match r with
  | none => ⟨evs ++ [SweepEvent.clear], none, []⟩
  | some e => ⟨evs, some e, cache⟩

/-- The CPython hash modulus `2^61 - 1` (`_PyHASH_MODULUS`). -/
def PYHASH_MODULUS : Nat := 2305843009213693951

/-- CPython's `hash` on `int`: the value reduced modulo `2^61 - 1` on
its magnitude, negated for negative inputs, with the error sentinel
`-1` remapped to `-2`. -/
def pyHashInt (n : Int) : Int :=
  let m : Nat := n.natAbs % PYHASH_MODULUS
  let h : Int := if n < 0 then -(m : Int) else (m : Int)
  if h = -1 then -2 else h

/-- CPython's `hash` on `bool`: booleans hash as the ints 0 and 1. -/
def pyHashBool (b : Bool) : Int := pyHashInt (if b then 1 else 0)

/-- xxHash prime 1 used by CPython's tuple hash. -/
def XXPRIME_1 : Nat := 11400714785074694791

/-- xxHash prime 2 used by CPython's tuple hash. -/
def XXPRIME_2 : Nat := 14029467366897019727

/-- xxHash prime 5 used by CPython's tuple hash. -/
def XXPRIME_5 : Nat := 2870177450012600261

/-- `2^64`, the modulus of CPython's unsigned hash arithmetic. -/
def U64 : Nat := 18446744073709551616

/-- 64-bit rotate left by 31 (`_PyHASH_XXROTATE`). -/
def xxrotate (x : Nat) : Nat := (x * 2147483648) % U64 + x / 8589934592

/-- Reinterpret a signed hash value as the 64-bit unsigned lane fed to
the tuple-hash accumulator. -/
def asU64 (i : Int) : Nat := (i % (U64 : Int)).toNat

/-- One accumulator step of CPython's tuple hash. -/
def tupleLane (acc lane : Nat) : Nat :=
  (xxrotate ((acc + lane * XXPRIME_2) % U64) * XXPRIME_1) % U64

/-- Reinterpret an unsigned 64-bit value as signed. -/
def u64ToInt (u : Nat) : Int :=
  if u < 9223372036854775808 then (u : Int) else (u : Int) - (U64 : Int)

/-- CPython's `tuplehash` (Objects/tupleobject.c, xxHash based): fold
the element hashes through the lane accumulator, mix in the length, and
remap the unsigned error sentinel to 1546275796. -/
def pyHashTuple (hs : List Int) : Int :=
  let acc := (hs.map asU64).foldl tupleLane XXPRIME_5
  let acc := (acc + (hs.length ^^^ (XXPRIME_5 ^^^ 3527539))) % U64
  if acc = U64 - 1 then 1546275796 else u64ToInt acc

/-- The cache key computed by `_get_adapter` (tools.py lines 82-88):
`hash((tool_config.database_url, tool_config.read_only,
tool_config.max_rows))`. The string hash of `database_url` is
seed-dependent in CPython, so it is a parameter `urlHash`; the bool and
int components hash per CPython. -/
def config_hash (urlHash : Int) (read_only : Bool) (max_rows : Int) : Int :=
  pyHashTuple [urlHash, pyHashBool read_only, pyHashInt max_rows]

/-- State of the module-level `_adapter_cache` dict plus a counter
supplying identities for newly constructed adapters: distinct counter
values stand for distinct `SoliplexSQLAdapter` instances. -/
structure AdapterCacheState where
  entries : List (Int × Nat)
  next : Nat
deriving DecidableEq, Repr

/-- Dict lookup on the insertion-ordered cache association list. -/
def lookupCache : List (Int × Nat) → Int → Option Nat
  | [], _ => none
  | (k, v) :: rest, key => if k = key then some v else lookupCache rest key

/-- `_get_adapter`'s cache resolution (tools.py lines 81-99): compute
`config_hash`, return the cached adapter when the key is present,
otherwise create a fresh adapter, register it under the key, and return
it. -/
def _get_adapter (urlHash : Int) (read_only : Bool) (max_rows : Int)
    (st : AdapterCacheState) : Nat × AdapterCacheState :=
  let key := config_hash urlHash read_only max_rows
  match lookupCache st.entries key with
  | some a => (a, st)
  | none => (st.next, ⟨st.entries ++ [(key, st.next)], st.next + 1⟩)


/-- Does `pat` occur as a contiguous substring of the character list? -/
def listContains (pat : List Char) : List Char → Bool
  | [] => pat.isEmpty
  | c :: cs => pat.isPrefixOf (c :: cs) || listContains pat cs

/-- Does `pat` occur as a contiguous substring of `s`? -/
def containsSub (s pat : String) : Bool := listContains pat.toList s.toList

/-- The driver results of the statements that produced columns, in
statement order: the statements whose columns contribute rows to the
accumulated result (spec 4.5 step 2). -/
def producedResults (ex : String → ExecResult α) (stmts : List String) :
    List (ExecResult α) :=
  (stmts.map ex).filter (fun r => !r.columns.isEmpty)

/-- Sample read-only deps: driver returns a one-row result and echoes
the query as its plan. -/
def roDeps : SQLDatabaseDeps Int :=
  { execute := fun _ => { columns := ["x"], rows := [[1]], execution_time_ms := 1 }
    explain := fun s => s
    read_only := true
    max_rows := 100 }

/-- Sample writable deps with default row cap 2 whose driver returns
three rows for every query. -/
def capDeps : SQLDatabaseDeps Int :=
  { execute := fun _ =>
      { columns := ["x"], rows := [[1], [2], [3]], execution_time_ms := 1 }
    explain := fun s => s
    read_only := false
    max_rows := 2 }

/-- Expected output of `query capDeps _ (some 1)`: one row kept out of
three, truncation reported. -/
def wCapOut : SoliplexSQLAdapter.QueryOut Int :=
  { columns := ["x"], rows := [[1]], row_count := 1, truncated := true
    execution_time_ms := 1 }

/-- Sample backend whose driver returns a two-row result for read
statements and a columnless result for writes; it exposes a raw
connection with commit capability. -/
def wBackend : Backend Int :=
  { execute := fun s =>
      if _is_write_query s then
        { columns := [], rows := [], execution_time_ms := 4 }
      else
        { columns := ["x"], rows := [[1], [2]], execution_time_ms := 3 }
    connection := some { hasCommit := true } }

/-- Sample backend exposing no raw connection. -/
def nBackend : Backend Int :=
  { execute := fun _ => { columns := [], rows := [], execution_time_ms := 1 }
    connection := none }

/-- A two-statement batch: a read whose quoted literal contains a
semicolon, followed by a write. -/
def wSql : String := "SELECT \"a;b\" FROM t; INSERT INTO t (x) VALUES (2)"

/-- Expected batch output for `wSql` against `wBackend`. -/
def wOut2 : BatchOut Int :=
  { columns := ["x"], rows := [[1], [2]], allRows := [[1], [2]]
    row_count := 2, truncated := false, execution_time_ms := 7
    anyWrite := true, committed := true
    executed := ["SELECT \"a;b\" FROM t", "INSERT INTO t (x) VALUES (2)"] }

/-- Expected batch output for a single INSERT against `wBackend`. -/
def wOut1 : BatchOut Int :=
  { columns := [], rows := [], allRows := []
    row_count := 0, truncated := false, execution_time_ms := 4
    anyWrite := true, committed := true
    executed := ["INSERT INTO t (x) VALUES (2)"] }

/-- A close behavior that raises on adapter 2 and succeeds elsewhere. -/
def failClose : Nat → Option Unit := fun n => if n = 2 then some () else none

/-- Characterization of a successful run of the per-statement loop:
the executed trace extends the accumulator by the statements in order,
execution times add up, the final column list is that of the last
column-producing statement, rows concatenate across column-producing
statements, the write flag is the disjunction over the classifier, and
every statement passed the read-only guard. -/
theorem query_loop_ok_spec (ro : Bool) (ex : String → ExecResult α)
    (stmts : List String) :
    ∀ (acc out : BatchAccum α), query_loop ro ex stmts acc = .ok out →
    out.executed = acc.executed ++ stmts
    ∧ out.execution_time_ms = acc.execution_time_ms
        + (stmts.map (fun s => (ex s).execution_time_ms)).sum
    ∧ out.columns
        = ((producedResults ex stmts).map ExecResult.columns).getLastD acc.columns
    ∧ out.rows = acc.rows ++ ((producedResults ex stmts).map ExecResult.rows).flatten
    ∧ out.anyWrite = (acc.anyWrite || stmts.any _is_write_query)
    ∧ ∀ s ∈ stmts, SoliplexSQLAdapter._check_read_only ro s = .ok () := by
  induction stmts with
  | nil =>
    intro acc out h
    simp only [query_loop] at h
    cases h
    simp [producedResults]
  | cons stmt rest ih =>
    intro acc out h
    simp only [query_loop] at h
    cases hg : SoliplexSQLAdapter._check_read_only ro stmt with
    | error e => rw [hg] at h; exact absurd h (by simp)
    | ok u =>
      rw [hg] at h
      obtain ⟨h1, h2, h3, h4, h5, h6⟩ := ih _ _ h
      dsimp only at h1 h2 h3 h4 h5
      have hpr : producedResults ex (stmt :: rest)
          = if ((ex stmt).columns.isEmpty : Bool) = true
            then producedResults ex rest
            else ex stmt :: producedResults ex rest := by
        simp only [producedResults, List.map_cons, List.filter_cons]
        by_cases hc : ((ex stmt).columns.isEmpty : Bool) = true <;> simp [hc]
      refine ⟨?_, ?_, ?_, ?_, ?_, ?_⟩
      · rw [h1]; simp
      · rw [List.map_cons, List.sum_cons, h2]; ring
      · by_cases hc : ((ex stmt).columns.isEmpty : Bool) = true
        · rw [h3, hpr, if_pos hc, if_pos hc]
        · rw [h3, hpr, if_neg hc, if_neg hc, List.map_cons, List.getLastD_cons]
      · by_cases hc : ((ex stmt).columns.isEmpty : Bool) = true
        · rw [h4, hpr, if_pos hc, if_pos hc]
        · rw [h4, hpr, if_neg hc, if_neg hc, List.map_cons, List.flatten_cons,
            List.append_assoc]
      · rw [h5, List.any_cons, Bool.or_assoc]
      · intro s hs
        rcases List.mem_cons.mp hs with hs | hs
        · subst hs; cases u; exact hg
        · exact h6 s hs

/-- A successful `query_batch` call either had an empty statement split
and returned the empty result, or ran the loop to completion and
assembled the output from the final accumulator. -/
theorem query_batch_ok_cases (ro : Bool) (dflt : Nat) (b : Backend α)
    (sql : String) (maxRows : Option Nat) (out : BatchOut α)
    (h : query_batch ro dflt b sql maxRows = .ok out) :
    (_split_statements sql = [] ∧ out = emptyBatchOut)
    ∨ ∃ acc, query_loop ro b.execute (_split_statements sql) initAccum = .ok acc
        ∧ out = { columns := acc.columns
                  rows := acc.rows.take (maxRows.getD dflt)
                  allRows := acc.rows
                  row_count := (acc.rows.take (maxRows.getD dflt)).length
                  truncated := decide ((maxRows.getD dflt) < acc.rows.length)
                  execution_time_ms := acc.execution_time_ms
                  anyWrite := acc.anyWrite
                  committed := _commit_if_needed b acc.anyWrite
                  executed := acc.executed } := by
  unfold query_batch at h
  by_cases he : (_split_statements sql).isEmpty
  · rw [if_pos he] at h
    cases h
    exact Or.inl ⟨List.isEmpty_iff.mp he, rfl⟩
  · rw [if_neg he] at h
    cases hl : query_loop ro b.execute (_split_statements sql) initAccum with
    | error e => rw [hl] at h; exact absurd h (by simp)
    | ok acc =>
      rw [hl] at h
      cases h
      exact Or.inr ⟨acc, rfl, rfl⟩

/-- The read-only guard passes exactly when the flag is clear or the
stripped upper-cased statement starts with a read-only keyword. -/
theorem check_read_only_ok_iff (ro : Bool) (s : String) :
    (SoliplexSQLAdapter._check_read_only ro s = .ok ())
    ↔ (ro = false
        ∨ READONLY_KEYWORDS.any
            (fun p => pyStartsWith (pyUpper (pyStrip s)) p) = true) := by
  unfold SoliplexSQLAdapter._check_read_only
  cases ro with
  | false => simp
  | true =>
    by_cases hk : READONLY_KEYWORDS.any
        (fun p => pyStartsWith (pyUpper (pyStrip s)) p) = true <;>
      simp [hk]

/-- Every rejection of the read-only guard carries the fixed
`readOnlyModeMsg` message in a `QueryExecutionError`. -/
theorem check_read_only_error_msg (ro : Bool) (s : String)
    (e : SoliplexSqlError)
    (h : SoliplexSQLAdapter._check_read_only ro s = .error e) :
    e = SoliplexSqlError.queryExecutionError readOnlyModeMsg := by
  unfold SoliplexSQLAdapter._check_read_only at h
  cases ro with
  | false => simp at h
  | true =>
    by_cases hk : READONLY_KEYWORDS.any
        (fun p => pyStartsWith (pyUpper (pyStrip s)) p) = true
    · simp [hk] at h
    · simp [hk] at h
      exact h.symm

/-- Unfolding of the keyword scan over the six read-only keywords. -/
theorem readonly_any_iff (s : String) :
    (READONLY_KEYWORDS.any
        (fun p => pyStartsWith (pyUpper (pyStrip s)) p) = true)
    ↔ (pyStartsWith (pyUpper (pyStrip s)) "SELECT" = true
       ∨ pyStartsWith (pyUpper (pyStrip s)) "EXPLAIN" = true
       ∨ pyStartsWith (pyUpper (pyStrip s)) "PRAGMA" = true
       ∨ pyStartsWith (pyUpper (pyStrip s)) "SHOW" = true
       ∨ pyStartsWith (pyUpper (pyStrip s)) "DESCRIBE" = true
       ∨ pyStartsWith (pyUpper (pyStrip s)) "WITH" = true) := by
  simp [READONLY_KEYWORDS, or_assoc]

/-- A successful `closeLoop` run closes every adapter in order. -/
theorem closeLoop_all_ok (closeFn : α → Option ε) :
    ∀ l : List α, (∀ a ∈ l, closeFn a = none) →
    closeLoop closeFn l = (l.map SweepEvent.close, none) := by
  intro l
  induction l with
  | nil => intro _; rfl
  | cons a rest ih =>
    intro h
    have ha : closeFn a = none := h a (List.mem_cons_self a rest)
    have hr := ih (fun b hb => h b (List.mem_cons_of_mem a hb))
    simp only [closeLoop, ha, hr, List.map_cons]

/-- Resolving any parameters against the empty cache creates adapter 0
and registers it under the parameters' `config_hash` key. -/
theorem get_adapter_miss_empty (u : Int) (ro : Bool) (mr : Int) :
    _get_adapter u ro mr ⟨[], 0⟩ = (0, ⟨[(config_hash u ro mr, 0)], 1⟩) := rfl

/-- A cache lookup at the key of the head entry returns its adapter. -/
theorem lookupCache_head (k : Int) (v : Nat) (rest : List (Int × Nat)) :
    lookupCache ((k, v) :: rest) k = some v := by
  show (if k = k then some v else lookupCache rest k) = some v
  rw [if_pos rfl]

/-- When the computed key is already registered, `_get_adapter` returns
the cached adapter and leaves the cache unchanged. -/
theorem get_adapter_hit (u : Int) (ro : Bool) (mr : Int)
    (st : AdapterCacheState) (a : Nat)
    (h : lookupCache st.entries (config_hash u ro mr) = some a) :
    _get_adapter u ro mr st = (a, st) := by
  show (match lookupCache st.entries (config_hash u ro mr) with
        | some a => (a, st)
        | none => (st.next,
            ⟨st.entries ++ [(config_hash u ro mr, st.next)], st.next + 1⟩))
      = (a, st)
  rw [h]

/-- `closeLoop` stops at the first adapter whose close raises, after
closing everything before it. -/
theorem closeLoop_stops_at_error (closeFn : α → Option ε) (b : α) (e : ε)
    (hb : closeFn b = some e) :
    ∀ (xs : List α), (∀ a ∈ xs, closeFn a = none) → ∀ (ys : List α),
    closeLoop closeFn (xs ++ b :: ys)
      = (xs.map SweepEvent.close ++ [SweepEvent.close b], some e) := by
  intro xs
  induction xs with
  | nil =>
    intro _ ys
    simp only [List.nil_append, closeLoop, hb, List.map_nil]
  | cons a rest ih =>
    intro h ys
    have ha : closeFn a = none := h a (List.mem_cons_self a rest)
    have hr := ih (fun c hc => h c (List.mem_cons_of_mem a hc)) ys
    simp only [List.cons_append, closeLoop, ha, List.append_eq, hr,
      List.map_cons]

/-- C1: after a successful batch in which some statement was classified
as a write, a commit is issued against the backend's underlying
connection exactly when the backend exposes a connection with commit
capability; when it exposes none (or the connection lacks commit) the
compensator skips silently and the call still returns ok, and a batch
with no write never commits. -/
theorem query_commit_compensation (ro : Bool) (dflt : Nat) (b : Backend α)
    (sql : String) (maxRows : Option Nat) (out : BatchOut α)
    (h : query_batch ro dflt b sql maxRows = .ok out) :
    out.anyWrite = ((_split_statements sql).any _is_write_query)
    ∧ (out.anyWrite = true →
        (out.committed = true
          ↔ ∃ conn, b.connection = some conn ∧ conn.hasCommit = true))
    ∧ (out.anyWrite = false → out.committed = false) := by
  rcases query_batch_ok_cases ro dflt b sql maxRows out h with
    ⟨hs, rfl⟩ | ⟨acc, hl, rfl⟩
  · rw [hs]; simp [emptyBatchOut]
  · obtain ⟨_, _, _, _, h5, _⟩ := query_loop_ok_spec ro b.execute _ _ _ hl
    simp only [initAccum, Bool.false_or] at h5
    dsimp only
    refine ⟨h5, ?_, ?_⟩
    · intro hw
      cases hconn : b.connection with
      | none => simp [_commit_if_needed, hw, hconn]
      | some conn => simp [_commit_if_needed, hw, hconn]
    · intro hw
      simp [_commit_if_needed, hw]

/-- Witness for C1 at a concrete write batch. -/
theorem query_commit_compensation_witness :
    query_batch false 10 wBackend "INSERT INTO t (x) VALUES (2)" none
      = Except.ok wOut1
    ∧ wOut1.anyWrite = true
    ∧ (wOut1.committed = true
        ↔ ∃ conn, wBackend.connection = some conn ∧ conn.hasCommit = true) :=
  ⟨by decide, by decide,
    (query_commit_compensation false 10 wBackend "INSERT INTO t (x) VALUES (2)"
      none wOut1 (by decide)).2.1 (by decide)⟩

/-- C2: every SQL string passed to the batch query operation is split
into statements honoring quoted-literal boundaries; on success, the
statements were sent to the driver exactly in split order, each passed
the read-only guard, per-statement execution times were summed, the
column list is that of the last column-producing statement, and the
accumulated rows are the concatenation of the rows of the
column-producing statements. -/
theorem query_pipeline_spec (ro : Bool) (dflt : Nat) (b : Backend α)
    (sql : String) (maxRows : Option Nat) (out : BatchOut α)
    (h : query_batch ro dflt b sql maxRows = .ok out) :
    out.executed = _split_statements sql
    ∧ (∀ s ∈ _split_statements sql,
        SoliplexSQLAdapter._check_read_only ro s = .ok ())
    ∧ out.execution_time_ms
        = ((_split_statements sql).map
            (fun s => (b.execute s).execution_time_ms)).sum
    ∧ out.columns
        = ((producedResults b.execute (_split_statements sql)).map
            ExecResult.columns).getLastD []
    ∧ out.allRows
        = ((producedResults b.execute (_split_statements sql)).map
            ExecResult.rows).flatten := by
  rcases query_batch_ok_cases ro dflt b sql maxRows out h with
    ⟨hs, rfl⟩ | ⟨acc, hl, rfl⟩
  · rw [hs]; simp [emptyBatchOut, producedResults]
  · obtain ⟨h1, h2, h3, h4, h5, h6⟩ := query_loop_ok_spec ro b.execute _ _ _ hl
    simp only [initAccum] at h1 h2 h3 h4
    dsimp only
    rw [List.nil_append] at h1
    rw [zero_add] at h2
    rw [List.nil_append] at h4
    exact ⟨h1, h6, h2, h3, h4⟩

/-- Witness for C2 at a concrete batch whose first statement carries a
quoted semicolon. -/
theorem query_pipeline_spec_witness :
    query_batch false 10 wBackend wSql none = Except.ok wOut2
    ∧ wOut2.executed = _split_statements wSql :=
  ⟨by decide, (query_pipeline_spec false 10 wBackend wSql none wOut2 (by decide)).1⟩

/-- C3: the adapter's query succeeds exactly when the read-only flag is
clear or the stripped upper-cased statement starts with one of SELECT,
EXPLAIN, PRAGMA, SHOW, DESCRIBE, WITH; every failure is the
QueryExecutionError policy violation. -/
theorem read_only_guard_spec (deps : SQLDatabaseDeps α) (s : String)
    (mr : Option Int) :
    ((SoliplexSQLAdapter.query deps s mr).isOk = true
      ↔ (deps.read_only = false
          ∨ pyStartsWith (pyUpper (pyStrip s)) "SELECT" = true
          ∨ pyStartsWith (pyUpper (pyStrip s)) "EXPLAIN" = true
          ∨ pyStartsWith (pyUpper (pyStrip s)) "PRAGMA" = true
          ∨ pyStartsWith (pyUpper (pyStrip s)) "SHOW" = true
          ∨ pyStartsWith (pyUpper (pyStrip s)) "DESCRIBE" = true
          ∨ pyStartsWith (pyUpper (pyStrip s)) "WITH" = true))
    ∧ (∀ e, SoliplexSQLAdapter.query deps s mr = .error e →
        e = SoliplexSqlError.queryExecutionError readOnlyModeMsg) := by
  have hqg : (SoliplexSQLAdapter.query deps s mr).isOk = true
      ↔ SoliplexSQLAdapter._check_read_only deps.read_only s = .ok () := by
    unfold SoliplexSQLAdapter.query
    cases hg : SoliplexSQLAdapter._check_read_only deps.read_only s with
    | error e => simp [hg, Except.isOk, Except.toBool]
    | ok u => cases u; simp [hg, Except.isOk, Except.toBool]
  constructor
  · rw [hqg, check_read_only_ok_iff, readonly_any_iff]
  · intro e he
    unfold SoliplexSQLAdapter.query at he
    cases hg : SoliplexSQLAdapter._check_read_only deps.read_only s with
    | error e2 =>
      rw [hg] at he
      cases he
      exact check_read_only_error_msg deps.read_only s _ hg
    | ok u => rw [hg] at he; exact absurd he (by simp)

/-- Witness for C3: a lower-case select passes under read-only, a DROP
is rejected with the policy-violation error. -/
theorem read_only_guard_spec_witness :
    (SoliplexSQLAdapter.query roDeps "select 1" none).isOk = true
    ∧ SoliplexSQLAdapter.query roDeps "DROP TABLE t" none
        = .error (SoliplexSqlError.queryExecutionError readOnlyModeMsg) :=
  ⟨(read_only_guard_spec roDeps "select 1" none).1.mpr
      (Or.inr (Or.inl (by decide))),
   by decide⟩

/-- C4 counterexample: the caller provides `maxRows = 0` against a
three-row result with configured default 2, yet the call returns 2
rows — the effective limit is not the provided value 0 (Python
`max_rows or default` treats 0 as absent). -/
theorem query_zero_max_rows_counterexample :
    (SoliplexSQLAdapter.query capDeps "SELECT 1" (some 0)).map
        (fun o => o.row_count) = Except.ok 2
    ∧ ¬((2 : Int) ≤ 0) :=
  ⟨by decide, by decide⟩

/-- C4 as amended: when any provided maxRows is positive and the
configured default is nonnegative, the effective limit is maxRows if
provided (absent or zero falls back to the default), the returned rows
are the accumulated rows truncated to that limit, the row count equals
the number of returned rows and never exceeds the limit, and truncated
holds exactly when the pre-cap row count exceeded the limit. -/
theorem query_row_cap_spec (deps : SQLDatabaseDeps α) (s : String)
    (mr : Option Int) (out : SoliplexSQLAdapter.QueryOut α)
    (hok : SoliplexSQLAdapter.query deps s mr = .ok out)
    (hpos : ∀ m, mr = some m → 0 < m)
    (hd : 0 ≤ deps.max_rows) :
    (∀ m, mr = some m
      → SoliplexSQLAdapter.effectiveLimit mr deps.max_rows = m)
    ∧ (mr = none
      → SoliplexSQLAdapter.effectiveLimit mr deps.max_rows = deps.max_rows)
    ∧ out.rows = (deps.execute s).rows.take
        (SoliplexSQLAdapter.effectiveLimit mr deps.max_rows).toNat
    ∧ out.row_count = out.rows.length
    ∧ (out.row_count : Int) ≤ SoliplexSQLAdapter.effectiveLimit mr deps.max_rows
    ∧ (out.truncated = true
        ↔ SoliplexSQLAdapter.effectiveLimit mr deps.max_rows
            < ((deps.execute s).rows.length : Int)) := by
  have hLnn : 0 ≤ SoliplexSQLAdapter.effectiveLimit mr deps.max_rows := by
    cases mr with
    | none => simpa [SoliplexSQLAdapter.effectiveLimit] using hd
    | some m =>
      have hm := hpos m rfl
      have hne : ¬(m = 0) := by omega
      simp only [SoliplexSQLAdapter.effectiveLimit, if_neg hne]
      omega
  unfold SoliplexSQLAdapter.query at hok
  cases hg : SoliplexSQLAdapter._check_read_only deps.read_only s with
  | error e => rw [hg] at hok; exact absurd hok (by simp)
  | ok u =>
    rw [hg] at hok
    cases hok
    dsimp only
    refine ⟨?_, ?_, ?_, rfl, ?_, ?_⟩
    · intro m hm
      subst hm
      have hm := hpos m rfl
      have hne : ¬(m = 0) := by omega
      simp [SoliplexSQLAdapter.effectiveLimit, if_neg hne]
    · intro hm
      subst hm
      simp [SoliplexSQLAdapter.effectiveLimit]
    · unfold SoliplexSQLAdapter.pySlice
      rw [if_pos hLnn]
    · unfold SoliplexSQLAdapter.pySlice
      rw [if_pos hLnn]
      have hlen := List.length_take
        (SoliplexSQLAdapter.effectiveLimit mr deps.max_rows).toNat
        (deps.execute s).rows
      have htn := Int.toNat_of_nonneg hLnn
      omega
    · simp only [decide_eq_true_eq]

/-- Witness for C4 as amended, at a provided cap of 1 against a
three-row result. -/
theorem query_row_cap_spec_witness :
    SoliplexSQLAdapter.query capDeps "SELECT 1" (some 1) = Except.ok wCapOut
    ∧ (0 : Int) ≤ capDeps.max_rows
    ∧ ((wCapOut.row_count : Int)
          ≤ SoliplexSQLAdapter.effectiveLimit (some 1) capDeps.max_rows
       ∧ (wCapOut.truncated = true
          ↔ SoliplexSQLAdapter.effectiveLimit (some 1) capDeps.max_rows
              < ((capDeps.execute "SELECT 1").rows.length : Int))) :=
  ⟨by decide, by decide,
   (query_row_cap_spec capDeps "SELECT 1" (some 1) wCapOut (by decide)
      (fun m hm => by injection hm with h; omega) (by decide)).2.2.2.2⟩

/-- C5 (evaluated at the failing input): resolving two structurally
distinct parameter sets — identical url hash and read-only flag, row
caps -1 and -2 — yields the same adapter instance, because the cache is
keyed by `hash(tuple)` and CPython hashes -1 and -2 alike. -/
theorem get_adapter_hash_collision (urlHash : Int) :
    (_get_adapter urlHash false (-1) ⟨[], 0⟩).1
      = (_get_adapter urlHash false (-2)
          ((_get_adapter urlHash false (-1) ⟨[], 0⟩).2)).1 := by
  have hneg : pyHashInt (-2) = pyHashInt (-1) := by decide
  have hkey : config_hash urlHash false (-2)
      = config_hash urlHash false (-1) := by
    unfold config_hash
    rw [hneg]
  have h1 : _get_adapter urlHash false (-1) ⟨[], 0⟩
      = (0, ⟨[(config_hash urlHash false (-1), 0)], 1⟩) := rfl
  have hhit : lookupCache [(config_hash urlHash false (-1), 0)]
      (config_hash urlHash false (-2)) = some 0 := by
    rw [hkey]
    exact lookupCache_head _ 0 []
  have h2 := get_adapter_hit urlHash false (-2)
      ⟨[(config_hash urlHash false (-1), 0)], 1⟩ 0 hhit
  rw [h1]
  dsimp only
  rw [h2]

/-- C6: when the statement split of the input is empty (in particular
for empty and whitespace-only input), the batch query returns the empty
Query Result immediately — zero rows, zero columns, not truncated, no
statement sent to the driver, no commit — for either read-only flag. -/
theorem query_empty_input (ro : Bool) (dflt : Nat) (b : Backend α)
    (sql : String) (maxRows : Option Nat)
    (h : _split_statements sql = []) :
    query_batch ro dflt b sql maxRows = .ok emptyBatchOut
    ∧ (emptyBatchOut : BatchOut α).rows = []
    ∧ (emptyBatchOut : BatchOut α).columns = []
    ∧ (emptyBatchOut : BatchOut α).truncated = false
    ∧ (emptyBatchOut : BatchOut α).executed = []
    ∧ (emptyBatchOut : BatchOut α).committed = false := by
  unfold query_batch
  rw [h]
  simp [emptyBatchOut]

/-- Witness for C6 at the empty and a whitespace-only input, with the
read-only flag set. -/
theorem query_empty_input_witness :
    _split_statements "" = []
    ∧ query_batch true 5 nBackend "" none = Except.ok emptyBatchOut
    ∧ _split_statements "   \n\t  " = []
    ∧ query_batch true 5 nBackend "   \n\t  " none = Except.ok emptyBatchOut :=
  ⟨by decide, (query_empty_input true 5 nBackend "" none (by decide)).1,
   by decide, (query_empty_input true 5 nBackend "   \n\t  " none (by decide)).1⟩

/-- C7 counterexample: sweeping a one-entry cache with a succeeding
close produces the trace close-then-clear — the registry clear is not
the first event, so entries are not removed before the close calls. -/
theorem close_all_clear_not_first :
    (close_all (fun _ => (none : Option Unit)) [((0 : Int), (0 : Nat))]).events
      = [SweepEvent.close 0, SweepEvent.clear]
    ∧ ¬((close_all (fun _ => (none : Option Unit))
          [((0 : Int), (0 : Nat))]).events.head?
        = some SweepEvent.clear) :=
  ⟨by decide, by decide⟩

/-- C7 as amended: the shutdown sweep closes each cached adapter exactly
once in registry order and only afterwards clears the registry; on an
empty cache it neither errors nor closes anything, and after a sweep in
which every close succeeds the cache is empty. -/
theorem close_all_sweep_spec (closeFn : α → Option ε)
    (cache : List (Int × α))
    (h : ∀ a ∈ cache.map Prod.snd, closeFn a = none) :
    close_all closeFn cache
      = ⟨(cache.map Prod.snd).map SweepEvent.close ++ [SweepEvent.clear],
         none, []⟩ := by
  unfold close_all
  rw [closeLoop_all_ok closeFn _ h]

/-- Witness for C7 as amended: the empty sweep and a two-adapter
sweep. -/
theorem close_all_sweep_spec_witness :
    close_all (fun _ => (none : Option Unit)) ([] : List (Int × Nat))
      = ⟨[SweepEvent.clear], none, []⟩
    ∧ close_all (fun _ => (none : Option Unit)) [((0 : Int), (1 : Nat)), (1, 2)]
      = ⟨[SweepEvent.close 1, SweepEvent.close 2, SweepEvent.clear],
         none, []⟩ :=
  ⟨close_all_sweep_spec (fun _ => (none : Option Unit)) []
      (fun a ha => by simp at ha),
   close_all_sweep_spec (fun _ => (none : Option Unit))
      [((0 : Int), (1 : Nat)), (1, 2)] (fun a _ => rfl)⟩

/-- C8 counterexample: a rejected statement raises the fixed message,
and that message does not mention WITH. -/
theorem read_only_msg_counterexample :
    SoliplexSQLAdapter._check_read_only true "DROP TABLE t"
      = .error (SoliplexSqlError.queryExecutionError readOnlyModeMsg)
    ∧ containsSub readOnlyModeMsg "WITH" = false :=
  ⟨by decide, by decide⟩

/-- C8 as amended: every rejection of the read-only guard carries the
fixed message, which names five of the six read-only-safe keywords —
SELECT, EXPLAIN, PRAGMA, SHOW, DESCRIBE — and omits WITH. -/
theorem read_only_reject_message (ro : Bool) (s : String)
    (e : SoliplexSqlError)
    (h : SoliplexSQLAdapter._check_read_only ro s = .error e) :
    e = SoliplexSqlError.queryExecutionError readOnlyModeMsg
    ∧ containsSub readOnlyModeMsg "SELECT" = true
    ∧ containsSub readOnlyModeMsg "EXPLAIN" = true
    ∧ containsSub readOnlyModeMsg "PRAGMA" = true
    ∧ containsSub readOnlyModeMsg "SHOW" = true
    ∧ containsSub readOnlyModeMsg "DESCRIBE" = true
    ∧ containsSub readOnlyModeMsg "WITH" = false :=
  ⟨check_read_only_error_msg ro s e h, by decide, by decide, by decide,
   by decide, by decide, by decide⟩

/-- Witness for C8 as amended at a rejected UPDATE. -/
theorem read_only_reject_message_witness :
    SoliplexSQLAdapter._check_read_only true "UPDATE t SET x = 1"
      = .error (SoliplexSqlError.queryExecutionError readOnlyModeMsg)
    ∧ SoliplexSqlError.queryExecutionError readOnlyModeMsg
        = SoliplexSqlError.queryExecutionError readOnlyModeMsg
    ∧ containsSub readOnlyModeMsg "DESCRIBE" = true :=
  ⟨by decide,
   (read_only_reject_message true "UPDATE t SET x = 1"
      (SoliplexSqlError.queryExecutionError readOnlyModeMsg) (by decide)).1,
   (read_only_reject_message true "UPDATE t SET x = 1"
      (SoliplexSqlError.queryExecutionError readOnlyModeMsg)
      (by decide)).2.2.2.2.2.1⟩

/-- C9: explain_query delegates the SQL string to the driver's explain
facility with no read-only guard — even under read_only with a
statement the guard would reject, no policy violation is raised. -/
theorem explain_query_no_guard (deps : SQLDatabaseDeps α) (s : String) :
    SoliplexSQLAdapter.explain_query deps s = .ok (deps.explain s)
    ∧ (deps.read_only = true →
        SoliplexSQLAdapter._check_read_only deps.read_only s
          = .error (SoliplexSqlError.queryExecutionError readOnlyModeMsg) →
        SoliplexSQLAdapter.explain_query deps s = .ok (deps.explain s)) :=
  ⟨rfl, fun _ _ => rfl⟩

/-- Witness for C9: a read-only adapter explains an INSERT without a
policy violation. -/
theorem explain_query_no_guard_witness :
    roDeps.read_only = true
    ∧ SoliplexSQLAdapter._check_read_only roDeps.read_only
        "INSERT INTO t (x) VALUES (1)"
      = .error (SoliplexSqlError.queryExecutionError readOnlyModeMsg)
    ∧ SoliplexSQLAdapter.explain_query roDeps "INSERT INTO t (x) VALUES (1)"
      = .ok (roDeps.explain "INSERT INTO t (x) VALUES (1)") :=
  ⟨rfl, by decide,
   (explain_query_no_guard roDeps "INSERT INTO t (x) VALUES (1)").2
     rfl (by decide)⟩

/-- C10: if some cached adapter's close raises during the shutdown
sweep, the error propagates, every adapter before the failing one was
closed, no adapter after it receives a close call, and the cache
registry keeps all of its entries. -/
theorem close_all_error_spec (closeFn : α → Option ε)
    (xs ys : List (Int × α)) (k : Int) (b : α) (e : ε)
    (hxs : ∀ a ∈ xs.map Prod.snd, closeFn a = none)
    (hb : closeFn b = some e) :
    close_all closeFn (xs ++ (k, b) :: ys)
      = ⟨(xs.map Prod.snd).map SweepEvent.close ++ [SweepEvent.close b],
         some e, xs ++ (k, b) :: ys⟩ := by
  unfold close_all
  have hmap : (xs ++ (k, b) :: ys).map Prod.snd
      = xs.map Prod.snd ++ b :: ys.map Prod.snd := by simp
  rw [hmap, closeLoop_stops_at_error closeFn b e hb (xs.map Prod.snd)
    hxs (ys.map Prod.snd)]

/-- Witness for C10: adapter 2's close raises; adapter 1 is closed,
adapter 3 is not, the error propagates and the cache keeps all three
entries. -/
theorem close_all_error_spec_witness :
    (∀ a ∈ [((0 : Int), (1 : Nat))].map Prod.snd, failClose a = none)
    ∧ failClose 2 = some ()
    ∧ close_all failClose [((0 : Int), (1 : Nat)), (1, 2), (2, 3)]
      = ⟨[SweepEvent.close 1, SweepEvent.close 2], some (),
         [((0 : Int), (1 : Nat)), (1, 2), (2, 3)]⟩ :=
  ⟨by decide, rfl,
   close_all_error_spec failClose [((0 : Int), (1 : Nat))] [(2, 3)] 1 2 ()
     (by decide) rfl⟩

end SoliplexSql
